import Mathlib

/-!
Verification development for `SceneRendererBJS.js` (ARnft-Babylon.js).

The repository is a thin adapter between an AR marker tracker (which emits
DOM custom events) and the Babylon.js scene graph.  This file gives a shallow
embedding of `src/src/SceneRendererBJS.js`:

* JavaScript numbers are embedded as real numbers (`ℝ`); a Babylon `Matrix`
  (flat, 16 entries, row-major storage) becomes the 16-field structure `M16`.
* Scene nodes (`Mesh` instances) become the structure `Node`; the scene and
  the `window` event target become the explicit state `SceneState`.
* Each `addEventListener` closure in the source is defunctionalised into a
  `Handler` constructor; `dispatch` replays a DOM event against the
  registered listeners in registration order, as the DOM does.
* Babylon.js math entry points used by the source
  (`Matrix.FromArray`, `Matrix.getRotationMatrix`,
  `Quaternion.fromRotationMatrix`, `Quaternion.toEulerAngles`,
  `Vector3.TransformCoordinates`) are embedded from their Babylon.js
  implementations.
* `async` functions are embedded as `Except`-valued functions: an `await` of
  a rejected promise propagates the error, a `throw` produces an error, and
  a body that finishes produces `Except.ok`.

In this embedding division is total (`x / 0 = 0`), whereas JavaScript
produces `Infinity`/`NaN`; no theorem below depends on a division by zero
except where an explicit nonzero hypothesis is stated.
-/

namespace ARnftBJS

noncomputable section

/-- A 3-component vector (Babylon `Vector3`). -/
structure Vec3 where
  x : ℝ
  y : ℝ
  z : ℝ

/-- Babylon `Vector3.Zero()`. -/
def Vec3.zero : Vec3 := ⟨0, 0, 0⟩

/-- A Babylon `Matrix`: flat 16-entry row-major storage, as produced by
`Matrix.FromArray` on the 16-element pose payload. -/
structure M16 where
  m0 : ℝ
  m1 : ℝ
  m2 : ℝ
  m3 : ℝ
  m4 : ℝ
  m5 : ℝ
  m6 : ℝ
  m7 : ℝ
  m8 : ℝ
  m9 : ℝ
  m10 : ℝ
  m11 : ℝ
  m12 : ℝ
  m13 : ℝ
  m14 : ℝ
  m15 : ℝ

/-- The identity matrix (`Matrix.Identity`). -/
def id16 : M16 := ⟨1, 0, 0, 0, 0, 1, 0, 0, 0, 0, 1, 0, 0, 0, 0, 1⟩

/-- `_objectToMatrix`: the source copies every numeric key of the event
payload into an array and calls `Matrix.FromArray`.  For a well-formed flat
16-element payload this re-indexing is the identity, so the payload is
already embedded as an `M16` and the conversion is the identity map. -/
def objectToMatrix (obj : M16) : M16 := obj

/-- Babylon `Vector3.TransformCoordinates(v, m)`: transform through the full
4x4 matrix, including the perspective divide by the resulting `w`
coordinate.  (Babylon multiplies by `rw = 1 / w`; in `ℝ` that is division.) -/
def transformCoordinates (v : Vec3) (m : M16) : Vec3 :=
  let rw := v.x * m.m3 + v.y * m.m7 + v.z * m.m11 + m.m15
  ⟨(v.x * m.m0 + v.y * m.m4 + v.z * m.m8 + m.m12) / rw,
   (v.x * m.m1 + v.y * m.m5 + v.z * m.m9 + m.m13) / rw,
   (v.x * m.m2 + v.y * m.m6 + v.z * m.m10 + m.m14) / rw⟩

/-- Reading the translation column of the matrix directly (the "naive"
extraction that the source does NOT use; kept for comparison). -/
def translationColumn (m : M16) : Vec3 := ⟨m.m12, m.m13, m.m14⟩

/-- Babylon `Matrix.determinant()` (Laplace expansion along the first row). -/
def determinant (m : M16) : ℝ :=
  m.m0 * (m.m5 * (m.m10 * m.m15 - m.m11 * m.m14)
          - m.m6 * (m.m9 * m.m15 - m.m11 * m.m13)
          + m.m7 * (m.m9 * m.m14 - m.m10 * m.m13))
  - m.m1 * (m.m4 * (m.m10 * m.m15 - m.m11 * m.m14)
          - m.m6 * (m.m8 * m.m15 - m.m11 * m.m12)
          + m.m7 * (m.m8 * m.m14 - m.m10 * m.m12))
  + m.m2 * (m.m4 * (m.m9 * m.m15 - m.m11 * m.m13)
          - m.m5 * (m.m8 * m.m15 - m.m11 * m.m12)
          + m.m7 * (m.m8 * m.m13 - m.m9 * m.m12))
  - m.m3 * (m.m4 * (m.m9 * m.m14 - m.m10 * m.m13)
          - m.m5 * (m.m8 * m.m14 - m.m10 * m.m12)
          + m.m6 * (m.m8 * m.m13 - m.m9 * m.m12))

/-- Babylon `Matrix.getRotationMatrix()`: decompose the scaling
(`sqrt` of the row norms, the `y` scale negated when the determinant is not
positive), fall back to the identity when some scale is zero, and otherwise
divide the upper-left 3x3 block by the scales. -/
def getRotationMatrix (m : M16) : M16 :=
  let sx := Real.sqrt (m.m0 * m.m0 + m.m1 * m.m1 + m.m2 * m.m2)
  let sy0 := Real.sqrt (m.m4 * m.m4 + m.m5 * m.m5 + m.m6 * m.m6)
  let sz := Real.sqrt (m.m8 * m.m8 + m.m9 * m.m9 + m.m10 * m.m10)
  let sy := if determinant m ≤ 0 then -sy0 else sy0
  if sx = 0 ∨ sy = 0 ∨ sz = 0 then id16
  else
    ⟨m.m0 / sx, m.m1 / sx, m.m2 / sx, 0,
     m.m4 / sy, m.m5 / sy, m.m6 / sy, 0,
     m.m8 / sz, m.m9 / sz, m.m10 / sz, 0,
     0, 0, 0, 1⟩

/-- A Babylon `Quaternion`. -/
structure Quat where
  x : ℝ
  y : ℝ
  z : ℝ
  w : ℝ

/-- Babylon `Quaternion.FromRotationMatrixToRef` (used by the instance
method `fromRotationMatrix` called in `_addRoot`): the robust
matrix-to-quaternion conversion branching on the trace / the largest
diagonal entry. -/
def quaternionFromRotationMatrix (m : M16) : Quat :=
  let m11 := m.m0
  let m12 := m.m4
  let m13 := m.m8
  let m21 := m.m1
  let m22 := m.m5
  let m23 := m.m9
  let m31 := m.m2
  let m32 := m.m6
  let m33 := m.m10
  let trace := m11 + m22 + m33
  if 0 < trace then
    let s := 0.5 / Real.sqrt (trace + 1.0)
    ⟨(m32 - m23) * s, (m13 - m31) * s, (m21 - m12) * s, 0.25 / s⟩
  else if m22 < m11 ∧ m33 < m11 then
    let s := 2.0 * Real.sqrt (1.0 + m11 - m22 - m33)
    ⟨0.25 * s, (m12 + m21) / s, (m13 + m31) / s, (m32 - m23) / s⟩
  else if m33 < m22 then
    let s := 2.0 * Real.sqrt (1.0 + m22 - m11 - m33)
    ⟨(m12 + m21) / s, 0.25 * s, (m23 + m32) / s, (m13 - m31) / s⟩
  else
    let s := 2.0 * Real.sqrt (1.0 + m33 - m11 - m22)
    ⟨(m13 + m31) / s, (m23 + m32) / s, 0.25 * s, (m21 - m12) / s⟩

/-- JavaScript `Math.atan2(y, x)`. -/
def atan2 (y x : ℝ) : ℝ :=
  if 0 < x then Real.arctan (y / x)
  else if x < 0 then
    (if 0 ≤ y then Real.arctan (y / x) + Real.pi
     else Real.arctan (y / x) - Real.pi)
  else
    (if 0 < y then Real.pi / 2 else if y < 0 then -(Real.pi / 2) else 0)

/-- Babylon `Quaternion.toEulerAnglesToRef`: quaternion to Euler angles,
with the gimbal-lock guard at `|qy*qz - qx*qw|` close to one half. -/
def Quat.toEulerAngles (q : Quat) : Vec3 :=
  let qz := q.z
  let qx := q.x
  let qy := q.y
  let qw := q.w
  let zAxisY := qy * qz - qx * qw
  let limit : ℝ := 0.4999999
  if zAxisY < -limit then
    ⟨Real.pi / 2, 2 * atan2 qy qw, 0⟩
  else if limit < zAxisY then
    ⟨-(Real.pi / 2), 2 * atan2 qy qw, 0⟩
  else
    let sqw := qw * qw
    let sqz := qz * qz
    let sqx := qx * qx
    let sqy := qy * qy
    ⟨Real.arcsin (-2.0 * (qx * qw - qy * qz)),
     atan2 (2.0 * (qz * qx + qy * qw)) (sqz - sqx - sqy + sqw),
     atan2 (2.0 * (qx * qy + qz * qw)) (-sqz - sqx + sqy + sqw)⟩

/-- The Euler rotation the pose listener assigns:
`new Quaternion().fromRotationMatrix(matrix.getRotationMatrix()).toEulerAngles()`. -/
def eulerOfMatrix (m : M16) : Vec3 :=
  (quaternionFromRotationMatrix (getRotationMatrix m)).toEulerAngles

-- The scene graph and the event listeners --------------------------------

/-- A JavaScript value as far as the source inspects one: the `src`
arguments of `addVideo` / `addImage` are either a URL string or a DOM
element; `let texture;` leaves a variable `undefined`. -/
inductive JsValue
  | undef
  | null
  | str (s : String)
  | elem (desc : String)
deriving DecidableEq

/-- JavaScript `typeof`. -/
def jsTypeof : JsValue → String
  | .undef => "undefined"
  | .null => "object"
  | .str _ => "string"
  | .elem _ => "object"

/-- `texture.video` for a `VideoTexture`: an existing video element is used
as-is; a URL `src` makes the constructor create a fresh video element for
that URL. -/
def videoOf : JsValue → JsValue
  | .str url => .elem ("video[" ++ url ++ "]")
  | v => v

/-- A Babylon texture object as constructed by the source: either
`new VideoTexture(texName, src, ...)` or `new Texture(url, scene, false,
true, null, null, null, buffer)`. -/
inductive TextureVal
  | video (texName : String) (src : JsValue)
  | texture (url : JsValue) (buffer : JsValue)
deriving DecidableEq

/-- Babylon `Color3`. -/
structure Color3 where
  r : ℝ
  g : ℝ
  b : ℝ

/-- `Color3.Black()`. -/
def Color3.black : Color3 := ⟨0, 0, 0⟩

/-- A Babylon `StandardMaterial` as far as the source configures one.
Babylon's default diffuse color is white. -/
structure StdMaterial where
  matName : String
  diffuseColor : Color3 := ⟨1, 1, 1⟩
  emissiveTexture : Option TextureVal := none
  useLogarithmicDepth : Bool := false

/-- The value stored in a node's `material` property.  JavaScript does not
type-check the assignment, so next to a proper `StandardMaterial` the
property can also end up holding a `Texture` object (which is what
`addImage` actually assigns). -/
inductive MaterialAssign
  | std (m : StdMaterial)
  | texObj (t : TextureVal)

/-- A Babylon scene node (`Mesh`).  `uniqueId` is Babylon's per-node
numeric identity; `id` is the string id (initialised to the name by the
`Mesh` constructor); `planeSize` records the `width`/`height` options of
`CreatePlane` for plane meshes. -/
structure Node where
  uniqueId : Nat
  name : String
  id : String := name
  enabled : Bool := true
  rotation : Vec3 := ⟨0, 0, 0⟩
  position : Vec3 := ⟨0, 0, 0⟩
  scaling : Vec3 := ⟨1, 1, 1⟩
  parent : Option Nat := none
  material : Option MaterialAssign := none
  planeSize : Option (ℝ × ℝ) := none

/-- The payload of a `getNFTData` event: the marker's physical size. -/
structure NFTPayload where
  width : ℝ
  height : ℝ
  dpi : ℝ

/-- The payload carried by a dispatched DOM event (`e.detail`). -/
inductive EventPayload
  | matrixGL (m : M16)
  | nftData (msg : NFTPayload)
  | empty

/-- The event-listener closures registered by the source, defunctionalised.
`pose` and `lost` are the two closures of `_addRoot`; `nftOffsetWH` is the
`getNFTData` closure of `addModel` / `addVideo` (y from `height`, x from
`width`); `nftOffsetHH` is the `getNFTData` closure of `addImage` (both
from `height`). -/
inductive Handler
  | pose (rootId : Nat)
  | lost (rootId : Nat) (visibility : Bool)
  | nftOffsetWH (contentId : Nat)
  | nftOffsetHH (contentId : Nat)

/-- The renderer state: the scene's meshes and materials plus the listeners
registered on `window` (`this.target`).  The constructor's camera and
hemispheric light are never referenced again by the source and are not
tracked.  `nextId` feeds Babylon's `uniqueId` allocation. -/
structure SceneState where
  uuid : String
  nodes : List Node := []
  materials : List StdMaterial := []
  listeners : List (String × Handler) := []
  nextId : Nat := 0

/-- The state right after `new SceneRendererBJS(canvas, uuid)`. -/
def initState (uuid : String) : SceneState := { uuid := uuid }

/-- Apply `f` to the node with the given `uniqueId`. -/
def updateNode (uid : Nat) (f : Node → Node) (nodes : List Node) : List Node :=
  nodes.map (fun nd => if nd.uniqueId = uid then f nd else nd)

/-- Body of the `getMatrixGL_RH` listener in `_addRoot`:
`root.setEnabled(true)`; build the matrix from the payload; set
`root.rotation` from the rotation matrix via quaternion and Euler angles;
`root.setAbsolutePosition(TransformCoordinates(Zero, matrix))` (the root
has no parent, so the absolute position is the position). -/
def poseUpdate (payload : M16) (root : Node) : Node :=
  let matrix := objectToMatrix payload
  { root with
    enabled := true,
    rotation := eulerOfMatrix matrix,
    position := transformCoordinates Vec3.zero matrix }

/-- Body of the `nftTrackingLost` listener in `_addRoot`:
`root.setEnabled(!!visibility)`; nothing else is touched. -/
def lostUpdate (visibility : Bool) (root : Node) : Node :=
  { root with enabled := visibility }

/-- Body of the `getNFTData` listener of `addModel` / `addVideo`:
`position.y = ((msg.height / msg.dpi) * 2.54 * 10) / 2`,
`position.x = ((msg.width / msg.dpi) * 2.54 * 10) / 2`. -/
def nftUpdateWH (msg : NFTPayload) (nd : Node) : Node :=
  { nd with position :=
      { nd.position with
        y := ((msg.height / msg.dpi) * 2.54 * 10) / 2,
        x := ((msg.width / msg.dpi) * 2.54 * 10) / 2 } }

/-- Body of the `getNFTData` listener of `addImage`: as `nftUpdateWH`, but
the `x` offset is also computed from `msg.height` (this is what the source
does on lines 226-227). -/
def nftUpdateHH (msg : NFTPayload) (nd : Node) : Node :=
  { nd with position :=
      { nd.position with
        y := ((msg.height / msg.dpi) * 2.54 * 10) / 2,
        x := ((msg.height / msg.dpi) * 2.54 * 10) / 2 } }

/-- Run one listener on the scene's nodes.  A listener only ever receives
the payload its event carries; with a payload of the wrong shape the
closure would read `undefined` fields, which no claim exercises, so the
nodes are left unchanged there. -/
def applyHandler (h : Handler) (p : EventPayload) (nodes : List Node) : List Node :=
  match h, p with
  | .pose rootId, .matrixGL m => updateNode rootId (poseUpdate m) nodes
  | .pose _, _ => nodes
  | .lost rootId visibility, _ => updateNode rootId (lostUpdate visibility) nodes
  | .nftOffsetWH cid, .nftData msg => updateNode cid (nftUpdateWH msg) nodes
  | .nftOffsetWH _, _ => nodes
  | .nftOffsetHH cid, .nftData msg => updateNode cid (nftUpdateHH msg) nodes
  | .nftOffsetHH _, _ => nodes

/-- Dispatch a DOM custom event: every listener whose event name matches
fires, in registration order. -/
def dispatch (evName : String) (p : EventPayload) (s : SceneState) : SceneState :=
  let step := fun (nodes : List Node) (l : String × Handler) =>
    if l.1 = evName then applyHandler l.2 p nodes else nodes
  { s with nodes := s.listeners.foldl step s.nodes }

/-- Event name `getMatrixGL_RH-${uuid}-${name}`. -/
def poseEv (uuid markerName : String) : String :=
  "getMatrixGL_RH-" ++ (uuid ++ ("-" ++ markerName))

/-- Event name `nftTrackingLost-${uuid}-${name}`. -/
def lostEv (uuid markerName : String) : String :=
  "nftTrackingLost-" ++ (uuid ++ ("-" ++ markerName))

/-- Event name `getNFTData-${uuid}-${name}`. -/
def nftEv (uuid markerName : String) : String :=
  "getNFTData-" ++ (uuid ++ ("-" ++ markerName))

/-- `_addRoot(root, name, visibility)`: register the pose listener and the
tracking-lost listener for the marker name. -/
def addRootListeners (uuid markerName : String) (rootId : Nat) (visibility : Bool) :
    List (String × Handler) :=
  [(poseEv uuid markerName, .pose rootId), (lostEv uuid markerName, .lost rootId visibility)]

/-- Lookup a node by Babylon `uniqueId`. -/
def nodeById (s : SceneState) (uid : Nat) : Option Node :=
  s.nodes.find? (fun nd => nd.uniqueId = uid)

/-- How many anchor ("root") nodes with the given name exist: top-level
nodes (no parent) whose name matches. -/
def anchorCount (s : SceneState) (rootName : String) : Nat :=
  (s.nodes.filter (fun nd => nd.name = rootName ∧ nd.parent = none)).length

-- The content attachers ---------------------------------------------------

/-- `addVideo({src, name, scale = 1, visibility = false})`.  Creates a fresh
root mesh `name + ' Root'`, a plane `name + ' Plane'` of size
`16*60 x 9*60`, a `StandardMaterial` (assigned to the plane) with black
diffuse color and a `VideoTexture` bound as emissive texture, scales the
plane, flips it with `rotation.x = Math.PI`, parents it to the root,
registers the `getNFTData` listener and then `_addRoot`; returns
`texture.video`. -/
def addVideo (src : JsValue) (markerName : String) (scale : ℝ) (visibility : Bool)
    (s : SceneState) : SceneState × JsValue :=
  let rootId := s.nextId
  let root : Node := { uniqueId := rootId, name := markerName ++ " Root" }
  let planeId := s.nextId + 1
  let texture := TextureVal.video ("Video - " ++ markerName) src
  let material : StdMaterial :=
    { matName := "Video Material - " ++ markerName,
      diffuseColor := Color3.black,
      emissiveTexture := some texture }
  let plane : Node :=
    { uniqueId := planeId,
      name := markerName ++ " Plane",
      planeSize := some (16 * 60, 9 * 60),
      material := some (.std material),
      parent := some rootId,
      scaling := ⟨scale, scale, scale⟩,
      rotation := ⟨Real.pi, 0, 0⟩ }
  let s1 : SceneState :=
    { s with
      nodes := s.nodes ++ [root, plane],
      materials := s.materials ++ [material],
      nextId := s.nextId + 2,
      listeners := s.listeners
        ++ [(nftEv s.uuid markerName, .nftOffsetWH planeId)]
        ++ addRootListeners s.uuid markerName rootId visibility }
  (s1, videoOf src)

/-- The texture construction inside `addImage`:
`let texture; if (typeof texture == "string") { texture = new Texture(src,
...) } else { texture = new Texture(null, ..., src) }`.  The condition
tests the still-`undefined` variable `texture` itself, not `src`. -/
def imageTextureOf (src : JsValue) : TextureVal :=
  let texture := JsValue.undef
  if jsTypeof texture = "string" then TextureVal.texture src .null
  else TextureVal.texture .null src

/-- `addImage({src, name, scale = 1, visibility = false})`.  Same plane and
material construction as `addVideo` up to names, except that the source
assigns `plane.material = texture` (the `Texture` object, not the
configured `StandardMaterial`, which is created and configured but never
assigned to anything), and the `getNFTData` listener computes the `x`
offset from `msg.height`; returns the plane. -/
def addImage (src : JsValue) (markerName : String) (scale : ℝ) (visibility : Bool)
    (s : SceneState) : SceneState × Node :=
  let rootId := s.nextId
  let root : Node := { uniqueId := rootId, name := markerName ++ " Root" }
  let planeId := s.nextId + 1
  let texture := imageTextureOf src
  let material : StdMaterial :=
    { matName := markerName ++ " Image Material",
      diffuseColor := Color3.black,
      emissiveTexture := some texture }
  let plane : Node :=
    { uniqueId := planeId,
      name := markerName ++ " Plane",
      planeSize := some (16 * 60, 9 * 60),
      material := some (.texObj texture),
      parent := some rootId,
      scaling := ⟨scale, scale, scale⟩,
      rotation := ⟨Real.pi, 0, 0⟩ }
  let s1 : SceneState :=
    { s with
      nodes := s.nodes ++ [root, plane],
      materials := s.materials ++ [material],
      nextId := s.nextId + 2,
      listeners := s.listeners
        ++ [(nftEv s.uuid markerName, .nftOffsetHH planeId)]
        ++ addRootListeners s.uuid markerName rootId visibility }
  (s1, plane)

-- Model import and `_processModelData` ------------------------------------

/-- A Babylon `AnimationGroup` as far as the source touches one. -/
structure AnimGroup where
  animName : String
  playing : Bool := true
deriving DecidableEq

/-- The result of `SceneLoader.ImportMeshAsync`: the imported meshes and
animation groups. -/
structure ModelData where
  meshes : List Node
  animationGroups : List AnimGroup := []

/-- The `{ mesh, animation || animations }` object produced by a `process`
function. -/
structure ProcessedModel where
  mesh : Node
  animation : Option AnimGroup := none
  animations : Option (List AnimGroup) := none

/-- JavaScript string coercion of the `name` argument as used in
`name + ' Mesh'`: when `_processModelData` is called with a single
argument, `name` is `undefined` and coerces to the string `"undefined"`. -/
def jsStr : Option String → String
  | some s => s
  | none => "undefined"

/-- `_processModelData(data, name)`.  Finds the mesh with id `__root__` and
renames it; a missing `__root__` mesh makes `model.mesh.name = ...` throw a
TypeError (embedded as `none`).  The `Default Light` mesh, if present, is
disposed (a scene-side effect that does not influence the returned model).
All animation groups are stopped; if the first group is named
`All Animations` or `Animation` it becomes `animation` (renamed), otherwise
`animations` is the full (stopped) list. -/
def processModelData (data : ModelData) (modelName : Option String) :
    Option ProcessedModel :=
  match data.meshes.find? (fun mesh => mesh.id == "__root__") with
  | none => none
  | some rootMesh =>
    let meshName := jsStr modelName ++ " Mesh"
    let mesh := { rootMesh with name := meshName, id := meshName }
    let stopped := data.animationGroups.map (fun g => { g with playing := false })
    match stopped with
    | [] => some { mesh := mesh, animations := some [] }
    | firstAnim :: _ =>
      if firstAnim.animName == "All Animations" || firstAnim.animName == "Animation" then
        some { mesh := mesh,
               animation := some { firstAnim with animName := jsStr modelName ++ " Animation" } }
      else
        some { mesh := mesh, animations := some stopped }

/-- `addModel({url, name, scale = 15, visibility = false, process})` after
the `await` of the importer has delivered `data`, with the default
`process` (the source calls `process(data)` with a single argument, so the
default `_processModelData` receives `name = undefined`).  Babylon
allocates fresh `uniqueId`s for imported meshes; only the processed root
mesh is tracked here (the remaining imported meshes are its scene-graph
children).  Creates the root mesh `name + ' Root'`, marks every scene
material with `useLogarithmicDepth`, parents the model mesh to the root,
scales it, registers the `getNFTData` listener and `_addRoot`. -/
def addModel (data : ModelData) (markerName : String) (scale : ℝ) (visibility : Bool)
    (s : SceneState) : Option (SceneState × ProcessedModel) :=
  match processModelData data none with
  | none => none
  | some model =>
    let meshId := s.nextId
    let rootId := s.nextId + 1
    let root : Node := { uniqueId := rootId, name := markerName ++ " Root" }
    let mesh : Node :=
      { model.mesh with uniqueId := meshId, parent := some rootId,
                        scaling := ⟨scale, scale, scale⟩ }
    let s1 : SceneState :=
      { s with
        materials := s.materials.map (fun mt => { mt with useLogarithmicDepth := true }),
        nodes := s.nodes ++ [root, mesh],
        nextId := s.nextId + 2,
        listeners := s.listeners
          ++ [(nftEv s.uuid markerName, .nftOffsetWH meshId)]
          ++ addRootListeners s.uuid markerName rootId visibility }
    some (s1, { model with mesh := mesh })

-- Promise semantics of the attachers --------------------------------------

/-- The errors that can surface through a rejected promise. -/
inductive JsError
  | loadError (msg : String)
  | typeError (msg : String)
deriving DecidableEq

/-- `addModel` as an `async` function.  Its first statement is
`await SceneLoader.ImportMeshAsync(...)`: a rejected import rejects the
returned promise with the same error, and no retry is attempted (the
importer is invoked exactly once).  A missing `__root__` mesh makes the
default `process` throw a TypeError, which also rejects the promise.  The
remaining statements of the body cannot throw. -/
def addModelE (importResult : Except JsError ModelData) (markerName : String)
    (scale : ℝ) (visibility : Bool) (s : SceneState) :
    Except JsError (SceneState × ProcessedModel) :=
  match importResult with
  | .error e => .error e
  | .ok data =>
    match addModel data markerName scale visibility s with
    | none => .error (.typeError "Cannot set properties of undefined (setting name)")
    | some result => .ok result

/-- `addVideo` as an `async` function.  The body contains no `await`: the
`VideoTexture` starts fetching its source in the background and
`textureLoad` — the eventual outcome of that fetch — is never awaited or
consulted, so the promise resolves with `texture.video` as soon as the body
finishes, whatever the fetch outcome. -/
def addVideoE (textureLoad : Except JsError Unit) (src : JsValue)
    (markerName : String) (scale : ℝ) (visibility : Bool) (s : SceneState) :
    Except JsError (SceneState × JsValue) :=
  .ok (addVideo src markerName scale visibility s)

/-- `addImage` as an `async` function; like `addVideoE`, the body contains
no `await`, so the texture fetch outcome never reaches the promise. -/
def addImageE (textureLoad : Except JsError Unit) (src : JsValue)
    (markerName : String) (scale : ℝ) (visibility : Bool) (s : SceneState) :
    Except JsError (SceneState × Node) :=
  .ok (addImage src markerName scale visibility s)

-- Concrete inputs used to instantiate the claims -------------------------

/-- A pose matrix whose homogeneous coordinate is 2: transforming the
origin through the full matrix divides the translation column by 2, so the
two extraction strategies disagree on it. -/
def halfWMatrix : M16 := ⟨1, 0, 0, 0, 0, 1, 0, 0, 0, 0, 1, 0, 1, 0, 0, 2⟩

/-- A mesh without the conventional `__root__` id (its `id` defaults to
its name, `"helper"`). -/
noncomputable def meshNoRoot : Node := { uniqueId := 0, name := "helper" }

/-- A conventionally exported root mesh: Babylon gives it id `__root__`. -/
noncomputable def meshRoot : Node := { uniqueId := 1, name := "orig", id := "__root__" }

/-- Imported data lacking a `__root__` mesh. -/
noncomputable def dataNoRoot : ModelData := { meshes := [meshNoRoot] }

/-- Imported data with a `__root__` mesh and no animation groups. -/
noncomputable def dataWithRoot : ModelData := { meshes := [meshRoot] }

/-- The scene state after `addModel` of `dataWithRoot` on a fresh
renderer, spelled out. -/
noncomputable def s1Witness : SceneState :=
  { uuid := "u",
    nodes := [{ uniqueId := 1, name := "marker Root" },
              { uniqueId := 0, name := "undefined Mesh", id := "undefined Mesh",
                parent := some 1, scaling := ⟨15, 15, 15⟩ }],
    materials := [],
    listeners := [(nftEv "u" "marker", .nftOffsetWH 0),
                  (poseEv "u" "marker", .pose 1),
                  (lostEv "u" "marker", .lost 1 false)],
    nextId := 2 }

/-- The processed model returned by that `addModel` run. -/
noncomputable def outWitness : ProcessedModel :=
  { mesh := { uniqueId := 0, name := "undefined Mesh", id := "undefined Mesh",
              parent := some 1, scaling := ⟨15, 15, 15⟩ },
    animations := some [] }

end

-- Identity-case lemmas for the rotation pipeline -------------------------

theorem determinant_id16 : determinant id16 = 1 := by
  simp only [determinant, id16]
  norm_num

theorem getRotationMatrix_id16 : getRotationMatrix id16 = id16 := by
  simp only [getRotationMatrix, id16]
  norm_num [determinant, Real.sqrt_one]

theorem sqrt_four : Real.sqrt 4 = 2 := by
  rw [show (4 : ℝ) = 2 ^ 2 by norm_num, Real.sqrt_sq (by norm_num : (0 : ℝ) ≤ 2)]

theorem quaternionFromRotationMatrix_id16 :
    quaternionFromRotationMatrix id16 = ⟨0, 0, 0, 1⟩ := by
  simp only [quaternionFromRotationMatrix, id16]
  norm_num [sqrt_four]

theorem atan2_zero_one : atan2 0 1 = 0 := by
  simp [atan2, Real.arctan_zero]

theorem toEulerAngles_one : Quat.toEulerAngles ⟨0, 0, 0, 1⟩ = ⟨0, 0, 0⟩ := by
  simp only [Quat.toEulerAngles]
  norm_num [atan2_zero_one, Real.arcsin_zero]

theorem eulerOfMatrix_id16 : eulerOfMatrix id16 = ⟨0, 0, 0⟩ := by
  rw [eulerOfMatrix, getRotationMatrix_id16, quaternionFromRotationMatrix_id16,
    toEulerAngles_one]

-- String facts about the templated event names ----------------------------

theorem ne_of_data_get (a b : String) (i : Nat)
    (h : a.data[i]? ≠ b.data[i]?) : a ≠ b :=
  fun he => h (by rw [he])

theorem append_ne_of_lit (p q rest rest2 : String) (i : Nat)
    (hp : i < p.data.length) (hq : i < q.data.length)
    (hne : p.data[i]? ≠ q.data[i]?) : p ++ rest ≠ q ++ rest2 := by
  apply ne_of_data_get _ _ i
  have h1 : (p ++ rest).data = p.data ++ rest.data := rfl
  have h2 : (q ++ rest2).data = q.data ++ rest2.data := rfl
  rw [h1, h2, List.getElem?_append_left hp, List.getElem?_append_left hq]
  exact hne

theorem nftEv_ne_poseEv (u n u2 n2 : String) : nftEv u n ≠ poseEv u2 n2 := by
  unfold nftEv poseEv
  exact append_ne_of_lit _ _ _ _ 3 (by decide) (by decide) (by decide)

theorem lostEv_ne_poseEv (u n u2 n2 : String) : lostEv u n ≠ poseEv u2 n2 := by
  unfold lostEv poseEv
  exact append_ne_of_lit _ _ _ _ 0 (by decide) (by decide) (by decide)

theorem nftEv_ne_lostEv (u n u2 n2 : String) : nftEv u n ≠ lostEv u2 n2 := by
  unfold nftEv lostEv
  exact append_ne_of_lit _ _ _ _ 0 (by decide) (by decide) (by decide)

theorem poseEv_ne_lostEv (u n u2 n2 : String) : poseEv u n ≠ lostEv u2 n2 := by
  unfold poseEv lostEv
  exact append_ne_of_lit _ _ _ _ 0 (by decide) (by decide) (by decide)

theorem string_append_left_ne (a b c : String) (h : b ≠ c) : a ++ b ≠ a ++ c := by
  intro he
  apply h
  have hd : a.data ++ b.data = a.data ++ c.data := by
    have h1 : (a ++ b).data = a.data ++ b.data := rfl
    have h2 : (a ++ c).data = a.data ++ c.data := rfl
    rw [← h1, ← h2, he]
  have hbc : b.data = c.data := List.append_cancel_left hd
  cases b
  cases c
  exact congrArg String.mk hbc

-- Claims -------------------------------------------------------------------

/-- C2: the pose listener sets the anchor position to the origin
transformed through the full 4x4 payload matrix and marks the anchor
enabled; an identity payload yields position `(0,0,0)` and zero rotation.
On `halfWMatrix` the full transform gives `(1/2, 0, 0)` while the
translation column reads `(1, 0, 0)`, so the listener's extraction is not
the naive column read. -/
theorem pose_sets_position_from_full_matrix (payload : M16) (root : Node) :
    (poseUpdate payload root).position
        = transformCoordinates Vec3.zero (objectToMatrix payload)
      ∧ (poseUpdate payload root).enabled = true
      ∧ (poseUpdate id16 root).position = ⟨0, 0, 0⟩
      ∧ (poseUpdate id16 root).rotation = ⟨0, 0, 0⟩
      ∧ (poseUpdate halfWMatrix root).position = ⟨1 / 2, 0, 0⟩
      ∧ translationColumn halfWMatrix = ⟨1, 0, 0⟩ := by
  refine ⟨rfl, rfl, ?_, ?_, ?_, rfl⟩
  · show transformCoordinates Vec3.zero (objectToMatrix id16) = ⟨0, 0, 0⟩
    simp only [transformCoordinates, objectToMatrix, Vec3.zero, id16]
    norm_num
  · show eulerOfMatrix (objectToMatrix id16) = ⟨0, 0, 0⟩
    exact eulerOfMatrix_id16
  · show transformCoordinates Vec3.zero (objectToMatrix halfWMatrix) = ⟨1 / 2, 0, 0⟩
    simp only [transformCoordinates, objectToMatrix, Vec3.zero, halfWMatrix]
    norm_num

/-- C4: the `getNFTData` listeners overwrite the content offset with
`((dimension / dpi) * 2.54 * 10) / 2`; the model/video listener takes `y`
from `height` and `x` from `width`, the image listener computes both from
`height`.  At `width=800, height=600, dpi=300` this gives `y = 25.4`,
`x = 508/15` (within `1/100` of `33.87`) for model/video and `x = 25.4`
for the image listener; a repeated event overwrites the previous offset.
(In this embedding division is total, so the formulas hold without a
`dpi ≠ 0` side condition; JavaScript would produce `Infinity` at
`dpi = 0`, a case the claim excludes.) -/
theorem nft_dimensions_offset (nd : Node) (w h dpi : ℝ) (msg2 : NFTPayload)
    (cid : Nat) (nodes : List Node) :
    applyHandler (.nftOffsetWH cid) (.nftData ⟨w, h, dpi⟩) nodes
        = updateNode cid (nftUpdateWH ⟨w, h, dpi⟩) nodes
      ∧ (nftUpdateWH ⟨w, h, dpi⟩ nd).position.y = ((h / dpi) * 2.54 * 10) / 2
      ∧ (nftUpdateWH ⟨w, h, dpi⟩ nd).position.x = ((w / dpi) * 2.54 * 10) / 2
      ∧ (nftUpdateHH ⟨w, h, dpi⟩ nd).position.y = ((h / dpi) * 2.54 * 10) / 2
      ∧ (nftUpdateHH ⟨w, h, dpi⟩ nd).position.x = ((h / dpi) * 2.54 * 10) / 2
      ∧ (nftUpdateWH ⟨800, 600, 300⟩ nd).position.y = 25.4
      ∧ (nftUpdateWH ⟨800, 600, 300⟩ nd).position.x = 508 / 15
      ∧ |(nftUpdateWH ⟨800, 600, 300⟩ nd).position.x - 33.87| < 1 / 100
      ∧ (nftUpdateHH ⟨800, 600, 300⟩ nd).position.x = 25.4
      ∧ nftUpdateWH ⟨w, h, dpi⟩ (nftUpdateWH msg2 nd) = nftUpdateWH ⟨w, h, dpi⟩ nd
      ∧ nftUpdateHH ⟨w, h, dpi⟩ (nftUpdateHH msg2 nd) = nftUpdateHH ⟨w, h, dpi⟩ nd := by
  refine ⟨rfl, rfl, rfl, rfl, rfl, ?_, ?_, ?_, ?_, rfl, rfl⟩
  · show ((600 : ℝ) / 300 * 2.54 * 10) / 2 = 25.4
    norm_num
  · show ((800 : ℝ) / 300 * 2.54 * 10) / 2 = 508 / 15
    norm_num
  · show |((800 : ℝ) / 300 * 2.54 * 10) / 2 - 33.87| < 1 / 100
    rw [abs_sub_lt_iff]
    norm_num
  · show ((600 : ℝ) / 300 * 2.54 * 10) / 2 = 25.4
    norm_num

/-- C10: the `typeof texture == "string"` test in `addImage` inspects the
still-`undefined` local variable `texture`, so it is false for every
`src` — even a URL string — and the texture is always built through the
element/buffer constructor path `new Texture(null, ..., src)`. -/
theorem image_url_branch_unreachable (src : JsValue) (u markerName : String)
    (sc : ℝ) (vis : Bool) (s : SceneState) :
    jsTypeof JsValue.undef = "undefined"
      ∧ imageTextureOf src = TextureVal.texture .null src
      ∧ imageTextureOf (JsValue.str u) = TextureVal.texture .null (JsValue.str u)
      ∧ (addImage src markerName sc vis s).2.material
          = some (.texObj (TextureVal.texture .null src)) := by
  exact ⟨rfl, rfl, rfl, rfl⟩

/-- C3: on an anchor attached with `visibility = false`, a tracking-lost
event disables the anchor while leaving its stored rotation and position
exactly as the preceding pose update set them; a subsequent pose update
re-enables the anchor and re-applies rotation and position from the new
matrix.  With `visibility = true` the tracking-lost handler leaves the
anchor enabled. -/
theorem tracking_lost_policy (u n : String) (src : JsValue) (sc : ℝ) (m m2 : M16) :
    let s1 := dispatch (poseEv u n) (.matrixGL m) ((addVideo src n sc false (initState u)).1)
    let s2 := dispatch (lostEv u n) .empty s1
    let s3 := dispatch (poseEv u n) (.matrixGL m2) s2
    let t1 := dispatch (lostEv u n) .empty
                (dispatch (poseEv u n) (.matrixGL m) ((addVideo src n sc true (initState u)).1))
    ((nodeById s2 0).map Node.enabled = some false)
      ∧ ((nodeById s2 0).map Node.rotation = (nodeById s1 0).map Node.rotation)
      ∧ ((nodeById s2 0).map Node.position = (nodeById s1 0).map Node.position)
      ∧ ((nodeById s3 0).map Node.enabled = some true)
      ∧ ((nodeById s3 0).map Node.position
            = some (transformCoordinates Vec3.zero (objectToMatrix m2)))
      ∧ ((nodeById s3 0).map Node.rotation = some (eulerOfMatrix (objectToMatrix m2)))
      ∧ ((nodeById t1 0).map Node.enabled = some true) := by
  simp [dispatch, addVideo, initState, addRootListeners, nodeById, applyHandler, updateNode,
    poseUpdate, lostUpdate, nftEv_ne_poseEv, lostEv_ne_poseEv, nftEv_ne_lostEv,
    poseEv_ne_lostEv, objectToMatrix]

/-- C1 counterexample: calling `addVideo` twice with the same marker name
`"m"` yields two distinct anchor (`"m Root"`) nodes, and the two planes
are parented to two different anchors — the attachments do not share a
single anchor node. -/
theorem two_attachments_two_anchors :
    let s2 := (addVideo (.elem "arvideo") "m" 1 false
                ((addVideo (.elem "arvideo") "m" 1 false (initState "u")).1)).1
    anchorCount s2 "m Root" = 2
      ∧ (nodeById s2 1).map Node.parent = some (some 0)
      ∧ (nodeById s2 3).map Node.parent = some (some 2) := by
  simp [addVideo, initState, addRootListeners, anchorCount, nodeById]

/-- C1 amended: each content attachment creates its own fresh anchor node
(`name + ' Root'`), so two attachments to one marker name produce two
anchors, each attachment's content parented under its own anchor; each
attachment registers its own pose listener, so a pose-update event for the
name enables and positions both anchors. -/
theorem each_attachment_own_anchor (u n : String) (src1 src2 : JsValue)
    (sc1 sc2 : ℝ) (v1 v2 v3 : Bool) (m : M16) :
    let s2 := (addImage src2 n sc2 v2 ((addVideo src1 n sc1 v1 (initState u)).1)).1
    let s3 := dispatch (poseEv u n) (.matrixGL m) s2
    anchorCount s2 (n ++ " Root") = 2
      ∧ (nodeById s2 1).map Node.parent = some (some 0)
      ∧ (nodeById s2 3).map Node.parent = some (some 2)
      ∧ (nodeById s3 0).map Node.enabled = some true
      ∧ (nodeById s3 0).map Node.position
          = some (transformCoordinates Vec3.zero (objectToMatrix m))
      ∧ (nodeById s3 2).map Node.enabled = some true
      ∧ (nodeById s3 2).map Node.position
          = some (transformCoordinates Vec3.zero (objectToMatrix m))
      ∧ (addModel dataWithRoot n 15 v3 s2).map (fun r => anchorCount r.1 (n ++ " Root"))
          = some 3 := by
  have hplane : n ++ " Plane" ≠ n ++ " Root" := string_append_left_ne _ _ _ (by decide)
  simp [addVideo, addImage, addModel, processModelData, dataWithRoot, meshRoot, jsStr,
    initState, addRootListeners, dispatch, nodeById, anchorCount,
    applyHandler, updateNode, poseUpdate, hplane, nftEv_ne_poseEv, lostEv_ne_poseEv,
    objectToMatrix]

/-- C6 (code bug): `addImage` builds the same plane as `addVideo` (same
`16*60 x 9*60` size, flip by `rotation.x = PI`, scaling, parented to the
anchor) and configures an identical standard material (black diffuse, the
texture as emissive); but where `addVideo` assigns that material to the
plane, `addImage` assigns the raw `Texture` object itself
(`plane.material = texture`), leaving the configured standard material
registered with the scene yet attached to nothing. -/
theorem image_plane_material_is_texture_object :
    ((addImage (.elem "img") "m" 1 false (initState "u")).2.material
        = some (.texObj (TextureVal.texture .null (.elem "img"))))
      ∧ ((nodeById (addVideo (.elem "vid") "m" 1 false (initState "u")).1 1).map Node.material
          = some (some (.std { matName := "Video Material - m",
                               diffuseColor := Color3.black,
                               emissiveTexture :=
                                 some (.video "Video - m" (.elem "vid")) })))
      ∧ ((addImage (.elem "img") "m" 1 false (initState "u")).1.materials
          = [{ matName := "m Image Material",
               diffuseColor := Color3.black,
               emissiveTexture := some (TextureVal.texture .null (.elem "img")) }])
      ∧ ((addImage (.elem "img") "m" 1 false (initState "u")).2.planeSize
          = some (16 * 60, 9 * 60))
      ∧ ((nodeById (addVideo (.elem "vid") "m" 1 false (initState "u")).1 1).map Node.planeSize
          = some (some (16 * 60, 9 * 60)))
      ∧ ((addImage (.elem "img") "m" 1 false (initState "u")).2.rotation
          = ⟨Real.pi, 0, 0⟩)
      ∧ ((addImage (.elem "img") "m" 1 false (initState "u")).2.parent = some 0) := by
  refine ⟨rfl, ?_, rfl, rfl, ?_, rfl, rfl⟩ <;>
    simp [addVideo, initState, nodeById]

/-- C7 amended: `addModel` awaits the importer, so a rejected import
rejects `addModel`'s promise with the same error (the importer is invoked
once — no retry); `addVideo` and `addImage` contain no `await`, so their
promises resolve with their normal results regardless of the texture-fetch
outcome — a texture-load failure is not propagated to their callers. -/
theorem load_failure_propagation (e : JsError) (load : Except JsError Unit)
    (src : JsValue) (markerName : String) (sc : ℝ) (vis : Bool) (s : SceneState) :
    addModelE (.error e) markerName sc vis s = .error e
      ∧ addVideoE load src markerName sc vis s = .ok (addVideo src markerName sc vis s)
      ∧ addImageE load src markerName sc vis s = .ok (addImage src markerName sc vis s) :=
  ⟨rfl, rfl, rfl⟩

/-- C7 counterexample: with the texture fetch failing (a 404 load error),
the promises returned by `addVideo` and `addImage` still resolve with
their normal results (`Except.ok`), not with the load failure the claim
predicts. -/
theorem video_texture_failure_not_propagated :
    addVideoE (.error (.loadError "404 Not Found")) (.str "bad-url") "m" 1 false (initState "u")
        = .ok (addVideo (.str "bad-url") "m" 1 false (initState "u"))
      ∧ addImageE (.error (.loadError "404 Not Found")) (.str "bad-url") "m" 1 false
            (initState "u")
        = .ok (addImage (.str "bad-url") "m" 1 false (initState "u")) :=
  ⟨rfl, rfl⟩

/-- C8: when no imported mesh has id `__root__`, `_processModelData`
throws (the `model.mesh.name = ...` assignment dereferences `undefined`),
embedded as `none`; when such a mesh exists, no error is raised and the
(first) `__root__` mesh — renamed to `name + ' Mesh'` — becomes the
result's `mesh` field. -/
theorem process_requires_root_mesh (data : ModelData) (modelName : Option String) :
    ((∀ mesh ∈ data.meshes, mesh.id ≠ "__root__") → processModelData data modelName = none)
      ∧ (∀ rootMesh, data.meshes.find? (fun mesh => mesh.id == "__root__") = some rootMesh →
          ∃ out, processModelData data modelName = some out
            ∧ out.mesh = { rootMesh with name := jsStr modelName ++ " Mesh",
                                         id := jsStr modelName ++ " Mesh" }) := by
  constructor
  · intro hall
    have hnone : data.meshes.find? (fun mesh => mesh.id == "__root__") = none := by
      rw [List.find?_eq_none]
      intro x hx
      simpa using hall x hx
    simp only [processModelData, hnone]
  · intro rootMesh hfind
    simp only [processModelData, hfind]
    cases hst : data.animationGroups.map (fun g => { g with playing := false }) with
    | nil => exact ⟨_, rfl, rfl⟩
    | cons g gs =>
      by_cases hname : (g.animName == "All Animations" || g.animName == "Animation") = true
      · simp only [hname, if_true]
        exact ⟨_, rfl, rfl⟩
      · simp only [hname, if_false]
        exact ⟨_, rfl, rfl⟩

theorem process_requires_root_mesh_witness :
    processModelData dataNoRoot (some "pikachu") = none
      ∧ ∃ out, processModelData dataWithRoot (some "pikachu") = some out
          ∧ out.mesh = { meshRoot with name := "pikachu Mesh", id := "pikachu Mesh" } := by
  constructor
  · exact (process_requires_root_mesh dataNoRoot (some "pikachu")).1 (by decide)
  · exact (process_requires_root_mesh dataWithRoot (some "pikachu")).2 meshRoot rfl

/-- Helper for C9: any successful run of `_processModelData` with the
`name` argument left `undefined` produces `"undefined Mesh"` /
`"undefined Animation"` names. -/
theorem processModelData_default_names (data : ModelData) (out : ProcessedModel)
    (h : processModelData data none = some out) :
    out.mesh.name = "undefined Mesh" ∧ out.mesh.id = "undefined Mesh"
      ∧ ∀ a, out.animation = some a → a.animName = "undefined Animation" := by
  unfold processModelData at h
  cases hf : data.meshes.find? (fun mesh => mesh.id == "__root__") with
  | none =>
    rw [hf] at h
    cases h
  | some rootMesh =>
    rw [hf] at h
    cases hst : data.animationGroups.map (fun g => { g with playing := false }) with
    | nil =>
      rw [hst] at h
      cases h
      exact ⟨rfl, rfl, fun a ha => by cases ha⟩
    | cons g gs =>
      rw [hst] at h
      by_cases hname : (g.animName == "All Animations" || g.animName == "Animation") = true
      · simp only [hname, if_true] at h
        cases h
        refine ⟨rfl, rfl, fun a ha => ?_⟩
        cases ha
        rfl
      · simp only [hname, if_false] at h
        cases h
        exact ⟨rfl, rfl, fun a ha => by cases ha⟩

/-- Helper for C9: a successful `addModel` preserves the mesh name/id and
the `animation` field chosen by the default `process` call, which is
`processModelData data none` because the source passes only `data`. -/
theorem addModel_uses_default_process (data : ModelData) (markerName : String)
    (sc : ℝ) (vis : Bool) (s s1 : SceneState) (out : ProcessedModel)
    (h : addModel data markerName sc vis s = some (s1, out)) :
    ∃ model, processModelData data none = some model
      ∧ out.mesh.name = model.mesh.name
      ∧ out.mesh.id = model.mesh.id
      ∧ out.animation = model.animation := by
  unfold addModel at h
  cases hp : processModelData data none with
  | none =>
    rw [hp] at h
    cases h
  | some model =>
    rw [hp] at h
    injection h with hpair
    injection hpair with hs hout
    exact ⟨model, rfl, by rw [← hout], by rw [← hout], by rw [← hout]⟩

/-- C9: `addModel` invokes the default post-processing with only the data
argument (`process(data)`), so its `name` parameter is `undefined` and
every model produced by the default path gets mesh name and id
`"undefined Mesh"` (and a single conventional animation would be renamed
`"undefined Animation"`), regardless of the marker name. -/
theorem addModel_default_names_undefined (data : ModelData) (markerName : String)
    (sc : ℝ) (vis : Bool) (s s1 : SceneState) (out : ProcessedModel)
    (hok : addModelE (.ok data) markerName sc vis s = .ok (s1, out)) :
    out.mesh.name = "undefined Mesh" ∧ out.mesh.id = "undefined Mesh"
      ∧ ∀ a, out.animation = some a → a.animName = "undefined Animation" := by
  have hM : addModel data markerName sc vis s = some (s1, out) := by
    unfold addModelE at hok
    simp only [] at hok
    cases hM2 : addModel data markerName sc vis s with
    | none =>
      rw [hM2] at hok
      cases hok
    | some r =>
      rw [hM2] at hok
      simp only [] at hok
      injection hok with hr
      rw [hr]
  obtain ⟨model, hp, hname, hid, hanim⟩ :=
    addModel_uses_default_process data markerName sc vis s s1 out hM
  have h := processModelData_default_names data model hp
  refine ⟨hname.trans h.1, hid.trans h.2.1, fun a ha => ?_⟩
  exact h.2.2 a (by rw [← hanim]; exact ha)

theorem addModel_default_names_undefined_witness :
    outWitness.mesh.name = "undefined Mesh" ∧ outWitness.mesh.id = "undefined Mesh"
      ∧ ∀ a, outWitness.animation = some a → a.animName = "undefined Animation" :=
  addModel_default_names_undefined dataWithRoot "marker" 15 false (initState "u")
    s1Witness outWitness rfl

end ARnftBJS
